import Mathlib

/-!
Shallow embedding of the core banking engine of the repository
(`core_banking/engine.py`, `core_banking/loan_engine.py`,
`core_banking/investment_manager.py`, `core_banking/payment_processor.py`).

Monetary amounts (`Decimal` columns) are modelled as exact rationals `ℚ`;
the final `round(x, 2)` of the EMI computation is modelled as exact
half-to-even rounding to cents.  Database rows are Lean structures; a
SQLAlchemy session is modelled as a pair of `Bank` states (`committed`,
`pending`), where `commit` copies pending onto committed and `rollback`
copies committed onto pending.  Fallible operations return `Except`.
-/

namespace CoreBanking

/-- An account row (`database/models.py: Account`), keeping the fields the
engine reads and writes: primary key, `balance`, `available_balance`. -/
structure Account where
  accId : Nat
  balance : ℚ
  available_balance : ℚ
deriving Repr, DecidableEq

/-- A transaction row (`database/models.py: Transaction`): primary key,
owning account, type, amount, balance snapshot and status. -/
structure Transaction where
  tid : Nat
  account_id : Nat
  transaction_type : String
  amount : ℚ
  balance_after : ℚ
  status : String
deriving Repr, DecidableEq

/-- A general-ledger row (`database/models.py: GeneralLedger`): one side of a
double-entry posting tied to a transaction. -/
structure GeneralLedger where
  transaction_id : Nat
  account_code : String
  account_name : String
  debit_amount : ℚ
  credit_amount : ℚ
deriving Repr, DecidableEq

/-- The durable store: account, transaction and ledger tables. -/
structure Bank where
  accounts : List Account
  transactions : List Transaction
  ledger : List GeneralLedger
deriving Repr, DecidableEq

/-- `db.query(Account).filter(Account.id == account_id).first()`. -/
def findAccount (db : Bank) (account_id : Nat) : Option Account :=
  db.accounts.find? (fun a => a.accId == account_id)

/-- Write back the locked account row (same primary key). -/
def setAccount (db : Bank) (a : Account) : Bank :=
  { db with accounts := db.accounts.map (fun b => if b.accId = a.accId then a else b) }

/-- `TransactionEngine._create_ledger_entries` (engine.py lines 141-210):
`deposit` debits Cash and credits Customer Deposits; `withdrawal`/`payment`
debit Customer Deposits and credit Cash; every other type produces a single
debit-only Miscellaneous line. -/
def createLedgerEntries (tid : Nat) (transaction_type : String) (amount : ℚ) :
    List GeneralLedger :=
  if transaction_type = "deposit" then
    [⟨tid, "1100", "Cash", amount, 0⟩,
     ⟨tid, "2100", "Customer Deposits", 0, amount⟩]
  else if transaction_type = "withdrawal" ∨ transaction_type = "payment" then
    [⟨tid, "2100", "Customer Deposits", amount, 0⟩,
     ⟨tid, "1100", "Cash", 0, amount⟩]
  else
    [⟨tid, "9999", "Miscellaneous", amount, 0⟩]

/-- The body of `TransactionEngine.process_transaction` (engine.py lines
84-139), i.e. the work done inside its `atomic_transaction` block, acting on
the session's pending state: look the account up, apply the
insufficient-funds check for `withdrawal`/`transfer`/`payment`, classify the
type to compute the new balance, append the transaction row, overwrite
`balance` and `available_balance` with the new balance, and append the
double-entry ledger rows.  New transaction rows take the next free primary
key. -/
def processTransactionBody (db : Bank) (account_id : Nat)
    (transaction_type : String) (amount : ℚ) :
    Except String (Bank × Transaction) :=
  match findAccount db account_id with
  | none => .error "Account not found"
  | some account =>
    if (transaction_type = "withdrawal" ∨ transaction_type = "transfer" ∨
          transaction_type = "payment") ∧ account.available_balance < amount then
      .error "Insufficient funds"
    else if transaction_type = "deposit" ∨ transaction_type = "credit" ∨
        transaction_type = "refund" then
      .ok (postCompleted db account transaction_type amount (account.balance + amount))
    else if transaction_type = "withdrawal" ∨ transaction_type = "debit" ∨
        transaction_type = "payment" ∨ transaction_type = "transfer" then
      .ok (postCompleted db account transaction_type amount (account.balance - amount))
    else
      .error ("Unknown transaction type: " ++ transaction_type)
where
  /-- Lines 106-131: write the transaction row, the balance update and the
  ledger rows for an accepted posting with new balance `new_balance`. -/
  postCompleted (db : Bank) (account : Account) (transaction_type : String)
      (amount new_balance : ℚ) : Bank × Transaction :=
    let txn : Transaction :=
      ⟨db.transactions.length, account.accId, transaction_type, amount,
        new_balance, "completed"⟩
    let account2 : Account :=
      { account with balance := new_balance, available_balance := new_balance }
    (⟨(setAccount db account2).accounts,
      db.transactions ++ [txn],
      db.ledger ++ createLedgerEntries txn.tid transaction_type amount⟩, txn)

/-- A SQLAlchemy session over one database: the durable `committed` state
and the in-session `pending` state.  `commit` copies pending onto committed;
`rollback` copies committed onto pending. -/
structure DBSession where
  committed : Bank
  pending : Bank
deriving Repr, DecidableEq

/-- A fresh session over a durable state. -/
def DBSession.open (db : Bank) : DBSession := ⟨db, db⟩

/-- `TransactionEngine.process_transaction` as called on a session: its body
runs inside `atomic_transaction` (engine.py lines 42-55), which commits on
success and rolls back (then re-raises) on failure. -/
def process_transaction (s : DBSession) (account_id : Nat)
    (transaction_type : String) (amount : ℚ) :
    DBSession × Except String Transaction :=
  match processTransactionBody s.pending account_id transaction_type amount with
  | .ok (db, txn) => (⟨db, db⟩, .ok txn)
  | .error e => (⟨s.committed, s.committed⟩, .error e)

/-- `TransactionEngine.transfer_funds` (engine.py lines 212-247): an outer
`atomic_transaction` wrapping two `process_transaction` calls — a `transfer`
debit on the source, then a `deposit` credit on the destination.  Each inner
call itself commits on success (nested `atomic_transaction` on the same
session); the outer handler rolls back and re-raises on failure. -/
def transfer_funds (s : DBSession) (from_account_id to_account_id : Nat)
    (amount : ℚ) : DBSession × Except String (Transaction × Transaction) :=
  match process_transaction s from_account_id "transfer" amount with
  | (s1, .error e) => (⟨s1.committed, s1.committed⟩, .error e)
  | (s1, .ok debit_txn) =>
    match process_transaction s1 to_account_id "deposit" amount with
    | (s2, .error e) => (⟨s2.committed, s2.committed⟩, .error e)
    | (s2, .ok credit_txn) => (⟨s2.pending, s2.pending⟩, .ok (debit_txn, credit_txn))

/-- The reversal-type map of `reverse_transaction` (engine.py lines 272-280):
`deposit`↔`withdrawal`, `credit`↔`debit`, default `reversal`. -/
def reversalTypeMap (t : String) : String :=
  if t = "deposit" then "withdrawal"
  else if t = "withdrawal" then "deposit"
  else if t = "credit" then "debit"
  else if t = "debit" then "credit"
  else "reversal"

/-- `db.query(Transaction).filter(Transaction.id == transaction_id).first()`. -/
def findTransaction (db : Bank) (tid : Nat) : Option Transaction :=
  db.transactions.find? (fun t => t.tid == tid)

/-- Set the status of transaction `tid` to `reversed`. -/
def markReversed (db : Bank) (tid : Nat) : Bank :=
  { db with transactions :=
      db.transactions.map (fun t => if t.tid = tid then { t with status := "reversed" } else t) }

/-- `TransactionEngine.reverse_transaction` (engine.py lines 249-298): inside
an outer `atomic_transaction`, look the original up (`NotFound` if absent),
require status `completed`, post the inverse-type transaction through
`process_transaction` (which itself commits), then mark the original
`reversed` and commit. -/
def reverse_transaction (s : DBSession) (transaction_id : Nat) :
    DBSession × Except String Transaction :=
  match findTransaction s.pending transaction_id with
  | none => (⟨s.committed, s.committed⟩, .error "Transaction not found")
  | some original =>
    if original.status ≠ "completed" then
      (⟨s.committed, s.committed⟩, .error "Can only reverse completed transactions")
    else
      match process_transaction s original.account_id
          (reversalTypeMap original.transaction_type) original.amount with
      | (s1, .error e) => (⟨s1.committed, s1.committed⟩, .error e)
      | (s1, .ok reversal) =>
        let db2 := markReversed s1.pending transaction_id
        (⟨db2, db2⟩, .ok reversal)

/-- Sum of the `debit_amount` column over the ledger rows of one transaction. -/
def ledgerDebitSum (l : List GeneralLedger) (tid : Nat) : ℚ :=
  ((l.filter (fun e => e.transaction_id == tid)).map (fun e => e.debit_amount)).sum

/-- Sum of the `credit_amount` column over the ledger rows of one transaction. -/
def ledgerCreditSum (l : List GeneralLedger) (tid : Nat) : ℚ :=
  ((l.filter (fun e => e.transaction_id == tid)).map (fun e => e.credit_amount)).sum

/-! ### Loan engine (`core_banking/loan_engine.py`) -/

/-- Python's `round(x, 2)` tie behaviour on the integer grid: round to the
nearest integer, ties to the even integer. -/
def halfEvenRound (q : ℚ) : ℤ :=
  if q - ⌊q⌋ < 1/2 then ⌊q⌋
  else if 1/2 < q - ⌊q⌋ then ⌊q⌋ + 1
  else if Even ⌊q⌋ then ⌊q⌋ else ⌊q⌋ + 1

/-- `round(x, 2)`: round to the nearest cent, ties to even. -/
def round2 (q : ℚ) : ℚ := (halfEvenRound (100 * q) : ℚ) / 100

/-- `LoanEngine.calculate_emi` (loan_engine.py lines 128-154): the monthly
rate is `annual_rate / 12`; at rate zero the EMI is `principal /
tenure_months`, otherwise the amortization formula
`P * r * (1+r)^n / ((1+r)^n - 1)` rounded to the cent.  `Decimal` and float
arithmetic are modelled as exact rational arithmetic with the final
`round(emi, 2)` as `round2`. -/
def calculate_emi (principal annual_rate : ℚ) (tenure_months : ℕ) : ℚ :=
  if annual_rate / 12 = 0 then principal / (tenure_months : ℚ)
  else
    round2 (principal * (annual_rate / 12) * (1 + annual_rate / 12) ^ tenure_months /
      ((1 + annual_rate / 12) ^ tenure_months - 1))

/-- A loan-payment row (`database/models.py: LoanPayment`), keeping the
fields `generate_payment_schedule` writes: payment number, scheduled amount,
principal/interest split, outstanding balance snapshot. -/
structure LoanPayment where
  payment_number : ℕ
  scheduled_amount : ℚ
  principal_amount : ℚ
  interest_amount : ℚ
  outstanding_balance : ℚ
deriving Repr, DecidableEq

/-- The loop of `LoanEngine.generate_payment_schedule` (loan_engine.py lines
258-280): for each remaining month, `interest = outstanding * monthly_rate`,
`principal = emi - interest`, the running outstanding drops by the principal
component, and the stored `outstanding_balance` is clamped at zero. -/
def scheduleFrom (monthly_rate emi : ℚ) : ℚ → ℕ → ℕ → List LoanPayment
  | _, _, 0 => []
  | outstanding, month, k+1 =>
    ⟨month, emi, emi - outstanding * monthly_rate, outstanding * monthly_rate,
      max (outstanding - (emi - outstanding * monthly_rate)) 0⟩ ::
    scheduleFrom monthly_rate emi
      (outstanding - (emi - outstanding * monthly_rate)) (month + 1) k

/-- `LoanEngine.generate_payment_schedule` (loan_engine.py lines 236-289) on
a loan with the given principal, annual rate, EMI and tenure: one row per
month `1..tenure_months`. -/
def generate_payment_schedule (principal interest_rate emi : ℚ)
    (tenure_months : ℕ) : List LoanPayment :=
  scheduleFrom (interest_rate / 12) emi principal 1 tenure_months

/-- Sum of the `principal_amount` column over a schedule. -/
def sumPrincipals (l : List LoanPayment) : ℚ :=
  (l.map (fun p => p.principal_amount)).sum

/-- One month of the running-outstanding recurrence:
`out - (emi - out * r) = out * (1 + r) - emi`. -/
def stepOut (r emi out : ℚ) : ℚ := out - (emi - out * r)

/-- The running outstanding balance after `k` months. -/
def iterOut (r emi : ℚ) : ℚ → ℕ → ℚ
  | out, 0 => out
  | out, k+1 => iterOut r emi (stepOut r emi out) k

/-! ### Investment manager (`core_banking/investment_manager.py`) -/

/-- An investment position (`database/models.py: Investment`), keeping the
fields `execute_trade` reads and writes.  `average_cost` is nullable in the
schema, hence `Option`. -/
structure Investment where
  quantity : ℚ
  average_cost : Option ℚ
  status : String
deriving Repr, DecidableEq

/-- A trade row (`database/models.py: Trade`), keeping the fields
`execute_trade` reads and writes. -/
structure Trade where
  trade_type : String
  symbol : String
  quantity : ℚ
  price : ℚ
  total_amount : ℚ
  status : String
deriving Repr, DecidableEq

/-- The pending trade row created by `InvestmentManager.place_order`
(investment_manager.py lines 130-156): `total_amount = quantity * price`,
status `pending` (commission is a separate column and plays no role in
holdings updates). -/
def mkTrade (trade_type symbol : String) (quantity price : ℚ) : Trade :=
  ⟨trade_type, symbol, quantity, price, quantity * price, "pending"⟩

/-- `investment.quantity * investment.average_cost if investment.average_cost
else Decimal("0.00")`: Python truthiness makes both `NULL` and `0` yield a
zero total cost. -/
def positionTotalCost (inv : Investment) : ℚ :=
  match inv.average_cost with
  | none => 0
  | some a => if a = 0 then 0 else inv.quantity * a

/-- `InvestmentManager.execute_trade` (investment_manager.py lines 168-236):
requires status `pending`; a buy adds the trade's `total_amount` to the
position's total cost and recomputes the quantity-weighted `average_cost`; a
sell requires sufficient holdings (else the trade is marked `failed` and the
error re-raised), decrements quantity, and closes the position at zero.
Returns the updated position, the updated trade row and an error, if any. -/
def execute_trade (inv : Investment) (t : Trade) :
    Investment × Trade × Option String :=
  if t.status ≠ "pending" then
    (inv, t, some ("Trade not in pending status: " ++ t.status))
  else if t.trade_type = "buy" then
    (⟨inv.quantity + t.quantity,
      some (if 0 < inv.quantity + t.quantity then
              (positionTotalCost inv + t.total_amount) / (inv.quantity + t.quantity)
            else 0),
      inv.status⟩,
     { t with status := "executed" }, none)
  else if t.trade_type = "sell" then
    if inv.quantity < t.quantity then
      (inv, { t with status := "failed" }, some "Insufficient holdings")
    else
      (⟨inv.quantity - t.quantity, inv.average_cost,
        if inv.quantity - t.quantity = 0 then "closed" else inv.status⟩,
       { t with status := "executed" }, none)
  else
    (inv, { t with status := "executed" }, none)

/-! ### Payment processor (`core_banking/payment_processor.py`) -/

/-- The parameter names of `TransactionEngine.process_transaction`
(engine.py lines 57-67). -/
def processTransactionParams : List String :=
  ["db", "account_id", "transaction_type", "amount", "description",
   "counterparty_name", "counterparty_account", "metadata"]

/-- The keyword arguments `PaymentProcessor.pay_bill` passes to
`process_transaction` at its call site (payment_processor.py lines 386-394). -/
def payBillCallKwargs : List String :=
  ["db", "account_id", "transaction_type", "amount", "description",
   "category", "reference"]

/-- A bill-payment row (`database/models.py: BillPayment`), keeping the
fields `pay_bill` writes. -/
structure BillPayment where
  account_id : Nat
  biller : String
  amount : ℚ
  status : String
deriving Repr, DecidableEq

/-- `PaymentProcessor.pay_bill` (payment_processor.py lines 362-416):
Python resolves the keyword arguments of the `process_transaction` call
before its body runs, so the call succeeds only if every keyword used at the
call site is a parameter of `process_transaction`; otherwise it raises a
`TypeError` and nothing is posted.  When the call binds, `pay_bill` posts a
`debit` transaction for the amount and records a `completed` BillPayment. -/
def pay_bill (db : Bank) (account_id : Nat) (biller_name : String) (amount : ℚ) :
    Except String (Bank × BillPayment) :=
  if payBillCallKwargs.all (fun k => processTransactionParams.contains k) then
    match processTransactionBody db account_id "debit" amount with
    | .error e => .error e
    | .ok (db2, _txn) =>
      .ok (db2, ⟨account_id, biller_name, amount, "completed"⟩)
  else
    .error "TypeError: process_transaction got an unexpected keyword argument"

/-! ### Lemmas about the transaction engine -/

/-- Looking an account up after writing back an update of the found row
returns the updated row. -/
theorem find_map_update (l : List Account) (aid : Nat) (account a2 : Account)
    (h : l.find? (fun a => a.accId == aid) = some account)
    (hid : a2.accId = account.accId) :
    (l.map (fun b => if b.accId = a2.accId then a2 else b)).find?
      (fun a => a.accId == aid) = some a2 := by
  have haid : account.accId = aid := by
    have := List.find?_some h
    simpa using this
  induction l with
  | nil => simp at h
  | cons c l ih =>
    cases hb : (c.accId == aid) with
    | true =>
      have hca : c = account := by
        simp only [List.find?, hb] at h
        simpa using h
      have hce : c.accId = a2.accId := by rw [hca, hid]
      have hb2 : (a2.accId == aid) = true := by simp [hid, haid]
      simp only [List.map_cons, if_pos hce, List.find?, hb2]
    | false =>
      have h2 : List.find? (fun a => a.accId == aid) l = some account := by
        simpa only [List.find?, hb] using h
      have hcne : ¬ c.accId = a2.accId := by
        rw [hid, haid]
        simpa using hb
      simp only [List.map_cons, if_neg hcne, List.find?, hb]
      exact ih h2

/-- Once the account is found, `processTransactionBody` is the chain of
validations and the posting. -/
theorem processTransactionBody_found (db : Bank) (aid : Nat) (ttype : String)
    (amount : ℚ) (account : Account) (hf : findAccount db aid = some account) :
    processTransactionBody db aid ttype amount =
      (if (ttype = "withdrawal" ∨ ttype = "transfer" ∨ ttype = "payment") ∧
            account.available_balance < amount then
        .error "Insufficient funds"
      else if ttype = "deposit" ∨ ttype = "credit" ∨ ttype = "refund" then
        .ok (processTransactionBody.postCompleted db account ttype amount
              (account.balance + amount))
      else if ttype = "withdrawal" ∨ ttype = "debit" ∨ ttype = "payment" ∨
          ttype = "transfer" then
        .ok (processTransactionBody.postCompleted db account ttype amount
              (account.balance - amount))
      else
        .error ("Unknown transaction type: " ++ ttype)) := by
  unfold processTransactionBody
  rw [hf]

/-- Inversion: a successful `processTransactionBody` call found the account,
created the transaction row with the next primary key and some new balance,
wrote that balance into the account, and appended the ledger rows. -/
theorem processTransactionBody_ok (db : Bank) (aid : Nat) (ttype : String)
    (amount : ℚ) (db2 : Bank) (txn : Transaction)
    (h : processTransactionBody db aid ttype amount = .ok (db2, txn)) :
    ∃ account nb, findAccount db aid = some account ∧
      txn = ⟨db.transactions.length, account.accId, ttype, amount, nb, "completed"⟩ ∧
      db2 = ⟨(setAccount db { account with balance := nb, available_balance := nb }).accounts,
             db.transactions ++ [txn],
             db.ledger ++ createLedgerEntries db.transactions.length ttype amount⟩ := by
  cases hf : findAccount db aid with
  | none =>
    unfold processTransactionBody at h
    rw [hf] at h
    cases h
  | some account =>
    rw [processTransactionBody_found db aid ttype amount account hf] at h
    split at h
    · cases h
    · split at h
      · injection h with h2
        simp only [processTransactionBody.postCompleted] at h2
        rw [Prod.mk.injEq] at h2
        obtain ⟨hdb2, htxn⟩ := h2
        subst htxn
        exact ⟨account, account.balance + amount, rfl, rfl, hdb2.symm⟩
      · split at h
        · injection h with h2
          simp only [processTransactionBody.postCompleted] at h2
          rw [Prod.mk.injEq] at h2
          obtain ⟨hdb2, htxn⟩ := h2
          subst htxn
          exact ⟨account, account.balance - amount, rfl, rfl, hdb2.symm⟩
        · cases h

/-! ### Claim theorems about the transaction engine -/

/-- C10: after every successful `process_transaction` call, the posted
account's `available_balance` equals its `balance` — both are set to the new
balance recorded in the transaction row — so in particular
`available_balance <= balance` holds after the posting. -/
theorem process_transaction_syncs_available_balance
    (db : Bank) (account_id : Nat) (transaction_type : String) (amount : ℚ)
    (db2 : Bank) (txn : Transaction)
    (h : processTransactionBody db account_id transaction_type amount = .ok (db2, txn)) :
    ∃ a2, findAccount db2 account_id = some a2 ∧
      a2.balance = txn.balance_after ∧
      a2.available_balance = txn.balance_after ∧
      a2.available_balance ≤ a2.balance := by
  obtain ⟨account, nb, hf, htxn, hdb2⟩ :=
    processTransactionBody_ok db account_id transaction_type amount db2 txn h
  refine ⟨{ account with balance := nb, available_balance := nb }, ?_, ?_, ?_, le_refl _⟩
  · subst hdb2
    exact find_map_update db.accounts account_id account _ hf rfl
  · rw [htxn]
  · rw [htxn]

/-- C10 witness: a concrete deposit, with the account read back afterwards. -/
theorem process_transaction_syncs_available_balance_witness :
    ∃ a2, findAccount ⟨[⟨0, 150, 150⟩], [⟨0, 0, "deposit", 50, 150, "completed"⟩],
        [⟨0, "1100", "Cash", 50, 0⟩, ⟨0, "2100", "Customer Deposits", 0, 50⟩]⟩ 0 = some a2 ∧
      a2.balance = (⟨0, 0, "deposit", 50, 150, "completed"⟩ : Transaction).balance_after ∧
      a2.available_balance = (⟨0, 0, "deposit", 50, 150, "completed"⟩ : Transaction).balance_after ∧
      a2.available_balance ≤ a2.balance :=
  process_transaction_syncs_available_balance ⟨[⟨0, 100, 100⟩], [], []⟩ 0 "deposit" 50
    ⟨[⟨0, 150, 150⟩], [⟨0, 0, "deposit", 50, 150, "completed"⟩],
      [⟨0, "1100", "Cash", 50, 0⟩, ⟨0, "2100", "Customer Deposits", 0, 50⟩]⟩
    ⟨0, 0, "deposit", 50, 150, "completed"⟩
    (by
      simp [processTransactionBody, findAccount, setAccount,
        processTransactionBody.postCompleted, createLedgerEntries, List.find?]
      norm_num)

/-- C2: the insufficient-funds check covers only `withdrawal`, `transfer`
and `payment`; a `debit`-type posting larger than the available balance is
accepted and drives both balances negative. -/
theorem debit_type_bypasses_insufficient_funds_check :
    processTransactionBody ⟨[⟨0, 50, 50⟩], [], []⟩ 0 "debit" 100 =
      .ok (⟨[⟨0, -50, -50⟩], [⟨0, 0, "debit", 100, -50, "completed"⟩],
            [⟨0, "9999", "Miscellaneous", 100, 0⟩]⟩,
           ⟨0, 0, "debit", 100, -50, "completed"⟩) := by
  simp [processTransactionBody, findAccount, setAccount,
    processTransactionBody.postCompleted, createLedgerEntries, List.find?]
  norm_num

/-- C5: `process_transaction` performs no `amount > 0` validation: a
withdrawal of a negative amount is accepted and increases the balance. -/
theorem nonpositive_amount_accepted_without_validation :
    processTransactionBody ⟨[⟨0, 50, 50⟩], [], []⟩ 0 "withdrawal" (-100) =
      .ok (⟨[⟨0, 150, 150⟩], [⟨0, 0, "withdrawal", -100, 150, "completed"⟩],
            [⟨0, "2100", "Customer Deposits", -100, 0⟩, ⟨0, "1100", "Cash", 0, -100⟩]⟩,
           ⟨0, 0, "withdrawal", -100, 150, "completed"⟩) := by
  simp [processTransactionBody, findAccount, setAccount,
    processTransactionBody.postCompleted, createLedgerEntries, List.find?]
  norm_num

/-- C1: when the debit leg of `transfer_funds` succeeds, the nested
`atomic_transaction` of `process_transaction` has already committed it, so
when the credit leg then fails (destination account absent) the outer
rollback cannot undo it: the committed state keeps the decremented source
balance, the transfer transaction row and its ledger row. -/
theorem transfer_rollback_fails_to_undo_committed_debit :
    transfer_funds (DBSession.open ⟨[⟨0, 100, 100⟩], [], []⟩) 0 1 50 =
      (⟨⟨[⟨0, 50, 50⟩], [⟨0, 0, "transfer", 50, 50, "completed"⟩],
          [⟨0, "9999", "Miscellaneous", 50, 0⟩]⟩,
        ⟨[⟨0, 50, 50⟩], [⟨0, 0, "transfer", 50, 50, "completed"⟩],
          [⟨0, "9999", "Miscellaneous", 50, 0⟩]⟩⟩,
       .error "Account not found") := by
  simp [transfer_funds, process_transaction, processTransactionBody, DBSession.open,
    findAccount, setAccount, processTransactionBody.postCompleted, createLedgerEntries,
    List.find?]
  norm_num

/-- C4: reversing a completed transaction of type `transfer` fails —
the reversal map sends it to the type `reversal`, which
`process_transaction` rejects as unknown — so no reversal is posted and the
original is not marked `reversed`. -/
theorem reversal_of_transfer_type_raises_unknown_type :
    reverse_transaction
        (DBSession.open ⟨[⟨0, 50, 50⟩], [⟨0, 0, "transfer", 50, 50, "completed"⟩], []⟩) 0 =
      (DBSession.open ⟨[⟨0, 50, 50⟩], [⟨0, 0, "transfer", 50, 50, "completed"⟩], []⟩,
       .error "Unknown transaction type: reversal") := by
  simp [reverse_transaction, process_transaction, processTransactionBody, DBSession.open,
    findTransaction, reversalTypeMap, findAccount, List.find?]

/-- C3 counterexample: a completed `transfer` transaction gets a single
debit-only Miscellaneous ledger line, so its ledger debit sum (40) differs
from its credit sum (0). -/
theorem misc_ledger_entry_unbalanced_for_transfer :
    processTransactionBody ⟨[⟨0, 100, 100⟩], [], []⟩ 0 "transfer" 40 =
      .ok (⟨[⟨0, 60, 60⟩], [⟨0, 0, "transfer", 40, 60, "completed"⟩],
            [⟨0, "9999", "Miscellaneous", 40, 0⟩]⟩,
           ⟨0, 0, "transfer", 40, 60, "completed"⟩) ∧
    ledgerDebitSum [⟨0, "9999", "Miscellaneous", 40, 0⟩] 0 = 40 ∧
    ledgerCreditSum [⟨0, "9999", "Miscellaneous", 40, 0⟩] 0 = 0 := by
  refine ⟨?_, ?_, ?_⟩
  · simp [processTransactionBody, findAccount, setAccount,
      processTransactionBody.postCompleted, createLedgerEntries, List.find?]
    norm_num
  · simp [ledgerDebitSum]
  · simp [ledgerCreditSum]

/-- C3 (amended): for the transaction types with an explicit ledger branch —
`deposit`, `withdrawal`, `payment` — every successful posting appends a
debit/credit pair whose debit sum equals its credit sum; other types get the
single unbalanced Miscellaneous line. -/
theorem ledger_balanced_for_deposit_withdrawal_payment
    (db : Bank) (aid : Nat) (ttype : String) (amount : ℚ)
    (db2 : Bank) (txn : Transaction)
    (hty : ttype = "deposit" ∨ ttype = "withdrawal" ∨ ttype = "payment")
    (h : processTransactionBody db aid ttype amount = .ok (db2, txn)) :
    db2.ledger = db.ledger ++ createLedgerEntries txn.tid ttype amount ∧
    ledgerDebitSum (createLedgerEntries txn.tid ttype amount) txn.tid =
      ledgerCreditSum (createLedgerEntries txn.tid ttype amount) txn.tid := by
  obtain ⟨account, nb, hf, htxn, hdb2⟩ :=
    processTransactionBody_ok db aid ttype amount db2 txn h
  have htid : txn.tid = db.transactions.length := by rw [htxn]
  constructor
  · rw [hdb2, htid]
  · rcases hty with h1 | h1 | h1 <;> subst h1 <;>
      simp [createLedgerEntries, ledgerDebitSum, ledgerCreditSum]

/-- C3 (amended) witness: a concrete deposit posting. -/
theorem ledger_balanced_for_deposit_withdrawal_payment_witness :
    (⟨[⟨0, 150, 150⟩], [⟨0, 0, "deposit", 50, 150, "completed"⟩],
        [⟨0, "1100", "Cash", 50, 0⟩, ⟨0, "2100", "Customer Deposits", 0, 50⟩]⟩ : Bank).ledger =
      ([] : List GeneralLedger) ++ createLedgerEntries
        (⟨0, 0, "deposit", 50, 150, "completed"⟩ : Transaction).tid "deposit" 50 ∧
    ledgerDebitSum (createLedgerEntries
        (⟨0, 0, "deposit", 50, 150, "completed"⟩ : Transaction).tid "deposit" 50) 0 =
      ledgerCreditSum (createLedgerEntries
        (⟨0, 0, "deposit", 50, 150, "completed"⟩ : Transaction).tid "deposit" 50) 0 :=
  ledger_balanced_for_deposit_withdrawal_payment ⟨[⟨0, 100, 100⟩], [], []⟩ 0 "deposit" 50
    ⟨[⟨0, 150, 150⟩], [⟨0, 0, "deposit", 50, 150, "completed"⟩],
      [⟨0, "1100", "Cash", 50, 0⟩, ⟨0, "2100", "Customer Deposits", 0, 50⟩]⟩
    ⟨0, 0, "deposit", 50, 150, "completed"⟩
    (Or.inl rfl)
    (by
      simp [processTransactionBody, findAccount, setAccount,
        processTransactionBody.postCompleted, createLedgerEntries, List.find?]
      norm_num)

/-- C9: every `pay_bill` call fails with a `TypeError` before posting
anything — the call site passes keyword arguments `category` and `reference`
that `process_transaction` does not accept — so no debit transaction is
posted and no BillPayment is recorded. -/
theorem pay_bill_raises_type_error_on_kwargs
    (db : Bank) (account_id : Nat) (biller_name : String) (amount : ℚ) :
    pay_bill db account_id biller_name amount =
      .error "TypeError: process_transaction got an unexpected keyword argument" := by
  have hc : (payBillCallKwargs.all fun k => processTransactionParams.contains k) = false := by
    rfl
  unfold pay_bill
  rw [if_neg (by rw [hc]; exact Bool.false_ne_true)]

/-! ### Lemmas about rounding -/

/-- Below the midpoint, half-even rounding is the floor. -/
theorem halfEvenRound_eq_of_lt_half (q : ℚ) (n : ℤ) (h1 : (n : ℚ) ≤ q)
    (h2 : q < n + 1/2) : halfEvenRound q = n := by
  have hfl : ⌊q⌋ = n := Int.floor_eq_iff.mpr ⟨h1, by linarith⟩
  unfold halfEvenRound
  rw [hfl, if_pos (by linarith)]

/-- Above the midpoint, half-even rounding is the ceiling. -/
theorem halfEvenRound_eq_of_gt_half (q : ℚ) (n : ℤ) (h1 : (n : ℚ) + 1/2 < q)
    (h2 : q < n + 1) : halfEvenRound q = n + 1 := by
  have hfl : ⌊q⌋ = n := Int.floor_eq_iff.mpr ⟨by linarith, h2⟩
  unfold halfEvenRound
  rw [hfl, if_neg (by linarith), if_pos (by linarith)]

/-- Half-even rounding moves a value by at most one half. -/
theorem abs_halfEvenRound_sub_le (q : ℚ) : |(halfEvenRound q : ℚ) - q| ≤ 1/2 := by
  have h1 : (⌊q⌋ : ℚ) ≤ q := Int.floor_le q
  have h2 : q < ⌊q⌋ + 1 := Int.lt_floor_add_one q
  unfold halfEvenRound
  split
  · next h =>
    rw [abs_le]
    constructor <;> linarith
  · next h =>
    split
    · next h3 =>
      push_cast
      rw [abs_le]
      constructor <;> linarith
    · next h3 =>
      have hmid : q - ⌊q⌋ = 1/2 := le_antisymm (not_lt.mp h3) (not_lt.mp h)
      split <;> push_cast <;> rw [abs_le] <;> constructor <;> linarith

/-- Rounding to the cent moves a value by at most half a cent. -/
theorem abs_round2_sub_le (q : ℚ) : |round2 q - q| ≤ 1/200 := by
  unfold round2
  have h := abs_halfEvenRound_sub_le (100 * q)
  have heq : (halfEvenRound (100 * q) : ℚ) / 100 - q =
      ((halfEvenRound (100 * q) : ℚ) - 100 * q) / 100 := by ring
  rw [heq, abs_div, abs_of_pos (by norm_num : (0:ℚ) < 100)]
  linarith

/-! ### Claim theorems about the loan engine -/

/-- C6: `calculate_emi` is the pure amortization formula
`P * r * (1+r)^n / ((1+r)^n - 1)` with `r = annual_rate / 12`, rounded to
the cent, degenerating to `principal / tenure_months` at rate zero; in
particular `calculate_emi 12000 0 12 = 1000.00` exactly and
`calculate_emi 10000 0.12 12 = 888.49` to the cent. -/
theorem calculate_emi_formula_and_values :
    calculate_emi 12000 0 12 = 1000 ∧
    calculate_emi 10000 (12/100) 12 = 88849/100 ∧
    (∀ P : ℚ, ∀ n : ℕ, calculate_emi P 0 n = P / n) ∧
    (∀ P r : ℚ, ∀ n : ℕ, r / 12 ≠ 0 →
      calculate_emi P r n =
        round2 (P * (r/12) * (1 + r/12) ^ n / ((1 + r/12) ^ n - 1))) := by
  refine ⟨?_, ?_, ?_, ?_⟩
  · rw [calculate_emi, if_pos (by norm_num)]
    norm_num
  · rw [calculate_emi, if_neg (by norm_num)]
    unfold round2
    rw [halfEvenRound_eq_of_gt_half _ 88848 (by norm_num) (by norm_num)]
    norm_num
  · intro P n
    rw [calculate_emi, if_pos (by norm_num)]
  · intro P r n h
    rw [calculate_emi, if_neg h]

/-- C6 witness: the nonzero-rate formula instantiated at the spec's
concrete check. -/
theorem calculate_emi_formula_and_values_witness :
    (12:ℚ)/100/12 ≠ 0 ∧
    calculate_emi 10000 (12/100) 12 =
      round2 (10000 * ((12:ℚ)/100/12) * (1 + (12:ℚ)/100/12) ^ 12 /
        ((1 + (12:ℚ)/100/12) ^ 12 - 1)) :=
  ⟨by norm_num,
   calculate_emi_formula_and_values.2.2.2 10000 (12/100) 12 (by norm_num)⟩

/-- The schedule has one row per month. -/
theorem scheduleFrom_length (r emi : ℚ) :
    ∀ (k : ℕ) (out : ℚ) (m : ℕ), (scheduleFrom r emi out m k).length = k := by
  intro k
  induction k with
  | zero => intro out m; rfl
  | succ k ih =>
    intro out m
    simp [scheduleFrom, ih]

/-- Telescoping: the principal components of a schedule sum to the starting
outstanding balance minus the final running outstanding balance. -/
theorem sumPrincipals_scheduleFrom (r emi : ℚ) :
    ∀ (k : ℕ) (out : ℚ) (m : ℕ),
      sumPrincipals (scheduleFrom r emi out m k) = out - iterOut r emi out k := by
  intro k
  induction k with
  | zero => intro out m; simp [scheduleFrom, sumPrincipals, iterOut]
  | succ k ih =>
    intro out m
    have hstep : iterOut r emi out (k+1) = iterOut r emi (stepOut r emi out) k := rfl
    simp only [scheduleFrom, sumPrincipals, List.map_cons, List.sum_cons, hstep]
    have := ih (stepOut r emi out) (m+1)
    simp only [sumPrincipals] at this
    rw [show out - (emi - out * r) = stepOut r emi out from rfl, this]
    unfold stepOut
    ring

/-- Closed form of the running outstanding balance. -/
theorem iterOut_closed (r emi : ℚ) :
    ∀ (k : ℕ) (out : ℚ),
      iterOut r emi out k =
        out * (1 + r) ^ k - emi * (∑ i in Finset.range k, (1 + r) ^ i) := by
  intro k
  induction k with
  | zero => intro out; simp [iterOut]
  | succ k ih =>
    intro out
    rw [show iterOut r emi out (k+1) = iterOut r emi (stepOut r emi out) k from rfl,
      ih, Finset.sum_range_succ]
    unfold stepOut
    ring

/-- Each row of the schedule carries the month number, the EMI as scheduled
amount, the interest `out_i * r`, the principal `emi - out_i * r`, and the
clamped next outstanding balance. -/
theorem scheduleFrom_getElem (r emi : ℚ) :
    ∀ (k i : ℕ) (out : ℚ) (m : ℕ), i < k →
      (scheduleFrom r emi out m k)[i]? =
        some ⟨m + i, emi, emi - iterOut r emi out i * r, iterOut r emi out i * r,
              max (iterOut r emi out (i+1)) 0⟩ := by
  intro k
  induction k with
  | zero => intro i out m h; omega
  | succ k ih =>
    intro i out m h
    cases i with
    | zero =>
      simp [scheduleFrom, iterOut, stepOut]
    | succ i =>
      have h2 : i < k := by omega
      simp only [scheduleFrom, List.getElem?_cons_succ]
      rw [ih i (out - (emi - out * r)) (m+1) h2]
      have hiter : ∀ j, iterOut r emi (out - (emi - out * r)) j = iterOut r emi out (j+1) := by
        intro j; rfl
      rw [hiter i, hiter (i+1)]
      have hm : m + 1 + i = m + (i + 1) := by omega
      rw [hm]

/-- C7 (amended): the generated schedule has exactly `tenure_months` rows,
each row `i` (month `1 + i`) carrying `interest = out_i * r`,
`principal = emi - interest` and the decremented running outstanding
balance; and whenever the annuity factor `∑ (1+r)^i` over the tenure is at
most twice the tenure, the principal components sum to the original
principal to within one cent per month. -/
theorem generate_payment_schedule_rows_and_sum
    (P rate : ℚ) (n : ℕ) (hn : 0 < n) (hr : 0 ≤ rate)
    (hA : (∑ i in Finset.range n, (1 + rate/12) ^ i) ≤ 2 * n) :
    (generate_payment_schedule P rate (calculate_emi P rate n) n).length = n ∧
    (∀ i, i < n →
      (generate_payment_schedule P rate (calculate_emi P rate n) n)[i]? =
        some ⟨1 + i, calculate_emi P rate n,
              calculate_emi P rate n - iterOut (rate/12) (calculate_emi P rate n) P i * (rate/12),
              iterOut (rate/12) (calculate_emi P rate n) P i * (rate/12),
              max (iterOut (rate/12) (calculate_emi P rate n) P (i+1)) 0⟩) ∧
    |P - sumPrincipals (generate_payment_schedule P rate (calculate_emi P rate n) n)| ≤
      n * (1/100) := by
  refine ⟨scheduleFrom_length _ _ n P 1, ?_, ?_⟩
  · intro i hi
    exact scheduleFrom_getElem (rate/12) (calculate_emi P rate n) n i P 1 hi
  · rw [generate_payment_schedule, sumPrincipals_scheduleFrom]
    have hcancel : P - (P - iterOut (rate/12) (calculate_emi P rate n) P n) =
        iterOut (rate/12) (calculate_emi P rate n) P n := by ring
    rw [hcancel, iterOut_closed]
    by_cases hr0 : rate / 12 = 0
    · have hemi : calculate_emi P rate n = P / n := by rw [calculate_emi, if_pos hr0]
      rw [hr0, hemi]
      have hnq : (n : ℚ) ≠ 0 := Nat.cast_ne_zero.mpr (by omega)
      simp only [add_zero, one_pow, Finset.sum_const, Finset.card_range, nsmul_eq_mul, mul_one]
      rw [div_mul_cancel₀ P hnq]
      simp only [sub_self, abs_zero]
      positivity
    · have hrpos : 0 < rate / 12 := lt_of_le_of_ne (by positivity) (Ne.symm hr0)
      have hx : (1 : ℚ) + rate/12 ≠ 1 := by intro hEq; apply hr0; linarith
      have hpow : 1 < (1 + rate/12) ^ n := one_lt_pow₀ (by linarith) (by omega)
      have hgeom : (∑ i in Finset.range n, (1 + rate/12) ^ i) =
          ((1 + rate/12) ^ n - 1) / (rate/12) := by
        rw [geom_sum_eq hx]
        congr 1
        ring
      have hemi : calculate_emi P rate n =
          round2 (P * (rate/12) * (1 + rate/12) ^ n / ((1 + rate/12) ^ n - 1)) := by
        rw [calculate_emi, if_neg hr0]
      have hEA : (P * (rate/12) * (1 + rate/12) ^ n / ((1 + rate/12) ^ n - 1)) *
          (∑ i in Finset.range n, (1 + rate/12) ^ i) = P * (1 + rate/12) ^ n := by
        have hden : (1 + rate/12) ^ n - 1 ≠ 0 := by
          intro hEq
          have : (1 + rate/12) ^ n = 1 := by linarith
          rw [this] at hpow
          exact absurd hpow (lt_irrefl 1)
        rw [hgeom, div_mul_div_comm]
        have hnum : P * (rate/12) * (1 + rate/12) ^ n * ((1 + rate/12) ^ n - 1) =
            (P * (1 + rate/12) ^ n) * (((1 + rate/12) ^ n - 1) * (rate/12)) := by ring
        rw [hnum, mul_div_assoc, div_self (mul_ne_zero hden hr0), mul_one]
      have hfact : P * (1 + rate/12) ^ n -
          calculate_emi P rate n * (∑ i in Finset.range n, (1 + rate/12) ^ i) =
          ((P * (rate/12) * (1 + rate/12) ^ n / ((1 + rate/12) ^ n - 1)) -
            calculate_emi P rate n) * (∑ i in Finset.range n, (1 + rate/12) ^ i) := by
        rw [sub_mul, hEA]
      rw [hfact, abs_mul]
      have hA0 : (0:ℚ) ≤ ∑ i in Finset.range n, (1 + rate/12) ^ i := by
        apply Finset.sum_nonneg
        intro i hi
        positivity
      have hdelta : |(P * (rate/12) * (1 + rate/12) ^ n / ((1 + rate/12) ^ n - 1)) -
          calculate_emi P rate n| ≤ 1/200 := by
        rw [hemi, abs_sub_comm]
        exact abs_round2_sub_le _
      rw [abs_of_nonneg hA0]
      have := mul_le_mul hdelta hA hA0 (by norm_num)
      have hgoal : (1/200 : ℚ) * (2 * n) = n * (1/100) := by ring
      linarith

/-- C7 counterexample: the loan with principal 1000, annual rate 12 and
tenure 10 (rates are not validated at loan creation) has EMI 1000.98, and
the principal components of its schedule sum to 1002.54 — off the original
principal by 2.54, beyond the one-cent-per-month tolerance of 0.10. -/
theorem schedule_sum_tolerance_counterexample :
    calculate_emi 1000 12 10 = 100098/100 ∧
    sumPrincipals (generate_payment_schedule 1000 12 (calculate_emi 1000 12 10) 10) =
      100254/100 ∧
    ¬ (|(1000:ℚ) - 100254/100| ≤ 10 * (1/100)) := by
  have h1 : calculate_emi 1000 12 10 = 100098/100 := by
    rw [calculate_emi, if_neg (by norm_num)]
    unfold round2
    rw [halfEvenRound_eq_of_gt_half _ 100097 (by norm_num) (by norm_num)]
    norm_num
  refine ⟨h1, ?_, ?_⟩
  · rw [h1, generate_payment_schedule, sumPrincipals_scheduleFrom, iterOut_closed]
    norm_num [Finset.sum_range_succ]
  · rw [show (1000:ℚ) - 100254/100 = -(254/100) by norm_num, abs_neg,
      abs_of_pos (by norm_num : (0:ℚ) < 254/100)]
    norm_num

/-- C7 witness: a two-month zero-rate loan. -/
theorem generate_payment_schedule_rows_and_sum_witness :
    (generate_payment_schedule 100 0 (calculate_emi 100 0 2) 2).length = 2 ∧
    (∀ i, i < 2 →
      (generate_payment_schedule 100 0 (calculate_emi 100 0 2) 2)[i]? =
        some ⟨1 + i, calculate_emi 100 0 2,
              calculate_emi 100 0 2 - iterOut (0/12) (calculate_emi 100 0 2) 100 i * (0/12),
              iterOut (0/12) (calculate_emi 100 0 2) 100 i * (0/12),
              max (iterOut (0/12) (calculate_emi 100 0 2) 100 (i+1)) 0⟩) ∧
    |(100:ℚ) - sumPrincipals (generate_payment_schedule 100 0 (calculate_emi 100 0 2) 2)| ≤
      2 * (1/100) :=
  generate_payment_schedule_rows_and_sum 100 0 2 (by norm_num) (by norm_num)
    (by norm_num [Finset.sum_range_succ])

/-! ### Claim theorems about the investment manager -/

/-- C8: executing a pending buy makes `average_cost` the quantity-weighted
running average `(old_qty * old_avg + trade_total) / (old_qty + trade_qty)`
and adds the trade quantity; executing a pending sell never changes
`average_cost` and only decreases quantity; buying 10 at 100 then 10 at 200
on an empty position yields average cost 150 and quantity 20. -/
theorem execute_trade_average_cost :
    (∀ (inv : Investment) (t : Trade) (a : ℚ),
      inv.average_cost = some a → t.status = "pending" → t.trade_type = "buy" →
      0 < inv.quantity + t.quantity →
      (execute_trade inv t).1.average_cost =
        some ((inv.quantity * a + t.total_amount) / (inv.quantity + t.quantity)) ∧
      (execute_trade inv t).1.quantity = inv.quantity + t.quantity) ∧
    (∀ (inv : Investment) (t : Trade),
      t.status = "pending" → t.trade_type = "sell" → t.quantity ≤ inv.quantity →
      (execute_trade inv t).1.average_cost = inv.average_cost ∧
      (execute_trade inv t).1.quantity = inv.quantity - t.quantity) ∧
    ((execute_trade (execute_trade ⟨0, none, "active"⟩ (mkTrade "buy" "AAPL" 10 100)).1
        (mkTrade "buy" "AAPL" 10 200)).1.average_cost = some 150 ∧
     (execute_trade (execute_trade ⟨0, none, "active"⟩ (mkTrade "buy" "AAPL" 10 100)).1
        (mkTrade "buy" "AAPL" 10 200)).1.quantity = 20) := by
  refine ⟨?_, ?_, ?_⟩
  · intro inv t a ha hs hty hq
    by_cases h0 : a = 0
    · constructor <;>
        simp [execute_trade, hs, hty, hq, positionTotalCost, ha, h0]
    · constructor <;>
        simp [execute_trade, hs, hty, hq, positionTotalCost, ha, h0]
  · intro inv t hs hty hle
    have hnl : ¬ inv.quantity < t.quantity := not_lt.mpr hle
    constructor <;> simp [execute_trade, hs, hty, hnl]
  · constructor <;>
      · simp [execute_trade, mkTrade, positionTotalCost]
        norm_num

/-- C8 witness: the buy-averaging clause at the second buy of the spec's
scenario. -/
theorem execute_trade_average_cost_witness :
    (execute_trade ⟨10, some 100, "active"⟩ (mkTrade "buy" "AAPL" 10 200)).1.average_cost =
      some (((10:ℚ) * 100 + (mkTrade "buy" "AAPL" 10 200).total_amount) /
        (10 + (mkTrade "buy" "AAPL" 10 200).quantity)) ∧
    (execute_trade ⟨10, some 100, "active"⟩ (mkTrade "buy" "AAPL" 10 200)).1.quantity =
      10 + (mkTrade "buy" "AAPL" 10 200).quantity :=
  execute_trade_average_cost.1 ⟨10, some 100, "active"⟩ (mkTrade "buy" "AAPL" 10 200)
    100 rfl rfl rfl (by norm_num [mkTrade])

end CoreBanking
